import Mathlib

/-
Shallow embedding of src/SpotifySleepTimer.py.

The script is modelled as pure functions.  External effects are made
explicit:
  * the wall clock (successive values of datetime.now()) is a list of
    rationals, measured in seconds, consumed in order;
  * the Spotify API's currently_playing() responses are a list of
    optional records, consumed in order;
  * console output is a list of abstract print messages;
  * API traffic (session creation, playback query, pause command) is an
    event trace;
  * Python exceptions are an Except error type.

Python's isinstance(x, (int, float)) returns True for booleans, since
bool is a subclass of int; the embedding of the type dispatch on
music_stop_time (lines 76-83) reproduces this.
-/

set_option autoImplicit false

namespace SpotifySleepTimer

/-- Errors the script can raise, one constructor per raise site (plus
an out-of-trace marker for when the modelled world supplies fewer clock
readings or API responses than the run consumes). -/
inductive TimerError where
  /-- ValueError "cannot convert stop time." (line 83). -/
  | unconvertibleDuration
  /-- ValueError "stopping time is before now." (line 85). -/
  | pastDuration
  /-- KeyError from the unguarded dict lookup in is_playing (line 27). -/
  | keyMissing
  /-- The modelled environment trace was exhausted. -/
  | outOfTrace
  deriving DecidableEq, Repr

/-- API traffic produced by the run, in order. -/
inductive Event where
  /-- Construction of the SpotifyOAuth manager and Spotify session,
  lines 62-69: acquisition of the authenticated session. -/
  | createSession
  /-- A currently_playing() round trip (line 24). -/
  | queryCurrentlyPlaying
  /-- A pause_playback() command (line 112). -/
  | pausePlayback
  deriving DecidableEq, Repr

/-- Console status lines, abstracted from their exact formatting. -/
inductive PrintMsg where
  /-- "does not play songs." (line 72). -/
  | notPlaying
  /-- "start sleep timer" (line 87). -/
  | startTimer
  /-- "start HH:MM:SS -> HH:MM:SS end." (lines 90-95). -/
  | startEnd
  /-- "stop playing" (line 113). -/
  | stopPlaying
  deriving DecidableEq, Repr

/-- The record returned by a successful currently_playing() call,
modelled as an association list from JSON keys to the boolean values
the script reads from it. -/
def PlayingRecord : Type := List (String × Bool)

instance : DecidableEq PlayingRecord := by
  unfold PlayingRecord
  infer_instance

/-- Dictionary lookup on a response record. -/
def lookupKey (r : PlayingRecord) (k : String) : Option Bool :=
  (r.find? (fun p => p.1 == k)).map Prod.snd

/-- Embedding of is_playing (lines 16-27), applied to the response of
the currently_playing() call it makes.  A None response returns False;
otherwise the script reads record["is_playing"] unguarded, so a record
without that key raises (KeyError), modelled as Except.error. -/
def isPlaying (resp : Option PlayingRecord) : Except TimerError Bool :=
  match resp with
  | none => .ok false
  | some r =>
    match lookupKey r "is_playing" with
    | some b => .ok b
    | none => .error .keyMissing

/-- The dynamic value passed as music_stop_time.  The script's type
dispatch (lines 76-83) distinguishes int/float, datetime, timedelta and
everything else; booleans and mappings (and strings) are possible
Python values, so they get constructors of their own.  Times and spans
are in seconds, as exact rationals. -/
inductive StopTimeValue where
  | int (n : ℤ)
  | float (q : ℚ)
  | boolean (b : Bool)
  | datetime (t : ℚ)
  | timedelta (d : ℚ)
  | mapping
  | string (s : String)
  deriving DecidableEq, Repr

/-- Embedding of the type dispatch at lines 76-83: isinstance(x, (int,
float)) is True for bool (bool subclasses int), so a boolean is
converted as a number (True = 1, False = 0).  The datetime branch calls
datetime.now() (line 79), consuming one clock reading.  Returns the
converted span together with the rest of the clock. -/
def convertStopTime (v : StopTimeValue) (clock : List ℚ) :
    Except TimerError (ℚ × List ℚ) :=
  match v with
  | .int n => .ok ((n : ℚ), clock)
  | .float q => .ok (q, clock)
  | .boolean b => .ok ((if b then 1 else 0 : ℚ), clock)
  | .datetime t =>
    match clock with
    | now :: rest => .ok (t - now, rest)
    | [] => .error .outOfTrace
  | .timedelta d => .ok (d, clock)
  | .mapping => .error .unconvertibleDuration
  | .string _ => .error .unconvertibleDuration

/-- Embedding of lines 75-85 (the spec's to_duration): convert the
input to a span, then raise "stopping time is before now." when the
span is strictly negative (timedelta comparison at line 84). -/
def toDuration (v : StopTimeValue) (clock : List ℚ) :
    Except TimerError (ℚ × List ℚ) :=
  match convertStopTime v clock with
  | .error e => .error e
  | .ok (d, rest) => if d < 0 then .error .pastDuration else .ok (d, rest)

/-- Embedding of the while loop at lines 102-109.  Each iteration reads
datetime.now() (one clock entry), computes elapsed = now - start, and
breaks when elapsed > stop_time; otherwise it sleeps and repeats.  The
loop never consults playback state.  Returns the elapsed value at the
break together with the unconsumed clock, or none when the clock trace
runs out before the break. -/
def timerLoop (startTime stopTime : ℚ) : List ℚ → Option (ℚ × List ℚ)
  | [] => none
  | t :: rest =>
    if stopTime < t - startTime then some (t - startTime, rest)
    else timerLoop startTime stopTime rest

/-- The external world a run consumes: successive datetime.now()
readings and successive currently_playing() responses. -/
structure World where
  clock : List ℚ
  playing : List (Option PlayingRecord)

instance {ε α : Type} [DecidableEq ε] [DecidableEq α] :
    DecidableEq (Except ε α) := fun x y =>
  match x, y with
  | .ok a, .ok b =>
    if h : a = b then .isTrue (by rw [h]) else
      .isFalse (by intro hc; cases hc; exact h rfl)
  | .error a, .error b =>
    if h : a = b then .isTrue (by rw [h]) else
      .isFalse (by intro hc; cases hc; exact h rfl)
  | .ok _, .error _ => .isFalse (by intro hc; cases hc)
  | .error _, .ok _ => .isFalse (by intro hc; cases hc)

/-- What a run of sleep_timer produces: its API traffic, its console
output, and its outcome (normal return or a raised error). -/
structure RunResult where
  events : List Event
  prints : List PrintMsg
  result : Except TimerError Unit
  deriving DecidableEq, Repr

/-- Embedding of sleep_timer (lines 39-113).  Credentials and scopes
only feed the session construction, which is opaque here, so they are
dropped; the elapsed-time check interval only feeds sleep() and has no
observable effect in the model.  Order of effects follows the source:
session construction (lines 62-69), entry is_playing check (line 71),
stop-time conversion and negativity check (lines 75-85), start prints
(lines 87-95), the polling loop (lines 102-109), and the final
is_playing re-check plus pause_playback (lines 111-113). -/
def sleepTimer (musicStopTime : StopTimeValue) (w : World) : RunResult :=
  match w.playing with
  | [] => ⟨[.createSession], [], .error .outOfTrace⟩
  | resp :: restPlaying =>
    match isPlaying resp with
    | .error e => ⟨[.createSession, .queryCurrentlyPlaying], [], .error e⟩
    | .ok false =>
      ⟨[.createSession, .queryCurrentlyPlaying], [.notPlaying], .ok ()⟩
    | .ok true =>
      match toDuration musicStopTime w.clock with
      | .error e => ⟨[.createSession, .queryCurrentlyPlaying], [], .error e⟩
      | .ok (stopTime, clock1) =>
        match clock1 with
        | [] =>
          ⟨[.createSession, .queryCurrentlyPlaying], [.startTimer],
            .error .outOfTrace⟩
        | startTime :: clock2 =>
          match clock2 with
          | [] =>
            ⟨[.createSession, .queryCurrentlyPlaying], [.startTimer],
              .error .outOfTrace⟩
          | _ :: clock3 =>
            match timerLoop startTime stopTime clock3 with
            | none =>
              ⟨[.createSession, .queryCurrentlyPlaying],
                [.startTimer, .startEnd], .error .outOfTrace⟩
            | some (_, _) =>
              match restPlaying with
              | [] =>
                ⟨[.createSession, .queryCurrentlyPlaying,
                    .queryCurrentlyPlaying],
                  [.startTimer, .startEnd], .error .outOfTrace⟩
              | resp2 :: _ =>
                match isPlaying resp2 with
                | .error e =>
                  ⟨[.createSession, .queryCurrentlyPlaying,
                      .queryCurrentlyPlaying],
                    [.startTimer, .startEnd], .error e⟩
                | .ok false =>
                  ⟨[.createSession, .queryCurrentlyPlaying,
                      .queryCurrentlyPlaying],
                    [.startTimer, .startEnd], .ok ()⟩
                | .ok true =>
                  ⟨[.createSession, .queryCurrentlyPlaying,
                      .queryCurrentlyPlaying, .pausePlayback],
                    [.startTimer, .startEnd, .stopPlaying], .ok ()⟩

/-- The config record stored in ./config.json (lines 130-136). -/
structure Config where
  username : String
  clientId : String
  clientSecret : String
  scope : List String
  redirectUri : String
  deriving DecidableEq, Repr

/-- The default record written on first run (lines 130-136). -/
def defaultConfig : Config :=
  { username := ""
    clientId := ""
    clientSecret := ""
    scope := ["user-modify-playback-state", "user-read-currently-playing"]
    redirectUri := "http://localhost:8080" }

/-- Errors raised by the main body of the script. -/
inductive MainError where
  /-- FileNotFoundError from get_config (line 141). -/
  | configMissing
  /-- IndexError "please input stop time" (line 156) or ValueError
  "cannot convert input. input=..." (line 154); carries the message. -/
  | invalidStopTime (msg : String)
  /-- An error propagating out of sleep_timer. -/
  | timer (e : TimerError)
  deriving DecidableEq, Repr

/-- Embedding of get_config (lines 116-146).  The filesystem is the
optional content of ./config.json; the function returns the new
filesystem state and either the parsed config or the raised
FileNotFoundError.  When the file is absent it first writes the
default record, then raises. -/
def getConfig (file : Option Config) :
    Option Config × Except MainError Config :=
  match file with
  | none => (some defaultConfig, .error .configMissing)
  | some c => (some c, .ok c)

/-- Phases of the main body that have externally visible effects,
recorded in order. -/
inductive Phase where
  /-- The get_config() call (line 160). -/
  | loadConfig
  /-- The sleep_timer(...) call (lines 162-169). -/
  | runTimer
  deriving DecidableEq, Repr

/-- Outcome of a run of the module main body. -/
structure MainResult where
  phases : List Phase
  file : Option Config
  events : List Event
  prints : List PrintMsg
  result : Except MainError Unit
  deriving DecidableEq, Repr

/-- Embedding of the module main body (lines 149-169).  argv is the
full sys.argv (program name first); parse stands for Python's float()
constructor on strings (an external primitive), returning none exactly
when float() raises ValueError.  Order follows the source: read and
parse sys.argv[1] (lines 150-158), load the config (line 160), then run
sleep_timer (lines 162-169).  After a successful parse stop_time is not
None, so the check at lines 157-158 never fires. -/
def mainEntry (argv : List String) (parse : String → Option ℚ)
    (file : Option Config) (w : World) : MainResult :=
  match argv.get? 1 with
  | none => ⟨[], file, [], [], .error (.invalidStopTime "please input stop time")⟩
  | some arg =>
    match parse arg with
    | none =>
      ⟨[], file, [], [],
        .error (.invalidStopTime ("cannot convert input. input=" ++ arg))⟩
    | some stopTime =>
      match getConfig file with
      | (file1, .error e) => ⟨[.loadConfig], file1, [], [], .error e⟩
      | (file1, .ok _) =>
        let r := sleepTimer (.float stopTime) w
        ⟨[.loadConfig, .runTimer], file1, r.events, r.prints,
          r.result.mapError .timer⟩

/-- The loop exits strictly after the duration: whenever the while
loop of lines 102-109 breaks with elapsed value e, stop_time < e. -/
theorem timerLoop_exit_gt (a d : ℚ) (clock : List ℚ) (e : ℚ)
    (rest : List ℚ) (h : timerLoop a d clock = some (e, rest)) : d < e := by
  induction clock generalizing e rest with
  | nil => simp [timerLoop] at h
  | cons t ts ih =>
    by_cases hc : d < t - a
    · rw [timerLoop, if_pos hc] at h
      obtain ⟨he, -⟩ := Prod.mk.injEq .. ▸ Option.some.inj h
      exact he ▸ hc
    · rw [timerLoop, if_neg hc] at h
      exact ih e rest h

/-- Decomposition of a terminating loop run: the clock trace splits
into the readings consumed without breaking (each with elapsed ≤
stop_time), the reading at which the loop breaks, and the unconsumed
remainder. -/
theorem timerLoop_split (a d : ℚ) (clock : List ℚ) (e : ℚ)
    (rest : List ℚ) (h : timerLoop a d clock = some (e, rest)) :
    ∃ pre t, clock = pre ++ t :: rest ∧ (∀ u ∈ pre, u - a ≤ d) ∧
      e = t - a := by
  induction clock generalizing e rest with
  | nil => simp [timerLoop] at h
  | cons t ts ih =>
    by_cases hc : d < t - a
    · rw [timerLoop, if_pos hc] at h
      obtain ⟨he, hr⟩ := Prod.mk.injEq .. ▸ Option.some.inj h
      exact ⟨[], t, by simp [hr], by simp, he.symm⟩
    · rw [timerLoop, if_neg hc] at h
      obtain ⟨pre, t0, hclock, hpre, he⟩ := ih e rest h
      refine ⟨t :: pre, t0, by simp [hclock], ?_, he⟩
      intro u hu
      rcases List.mem_cons.mp hu with hu | hu
      · exact hu ▸ le_of_not_lt hc
      · exact hpre u hu

/-- C7: for a numeric seconds input, to_duration yields a span of
exactly that many seconds when it is nonnegative (zero included), and
raises the PastDuration error exactly when the span is negative; this
holds for both int and float inputs. -/
theorem toDuration_numeric (q : ℚ) (n : ℤ) (clock : List ℚ) :
    (0 ≤ q → toDuration (.float q) clock = .ok (q, clock)) ∧
    (toDuration (.float q) clock = .error .pastDuration ↔ q < 0) ∧
    (0 ≤ n → toDuration (.int n) clock = .ok ((n : ℚ), clock)) ∧
    (toDuration (.int n) clock = .error .pastDuration ↔ n < 0) := by
  refine ⟨fun h => ?_, ?_, fun h => ?_, ?_⟩
  · simp only [toDuration, convertStopTime]
    rw [if_neg (not_lt.mpr h)]
  · simp only [toDuration, convertStopTime]
    by_cases hq : q < 0
    · simp [if_pos hq, hq]
    · simp [if_neg hq, hq]
  · have hq : ¬ ((n : ℚ) < 0) := by exact_mod_cast not_lt.mpr h
    simp only [toDuration, convertStopTime]
    rw [if_neg hq]
  · simp only [toDuration, convertStopTime]
    by_cases hq : (n : ℚ) < 0
    · rw [if_pos hq]
      exact iff_of_true rfl (by exact_mod_cast hq)
    · rw [if_neg hq]
      constructor
      · intro hc; cases hc
      · intro hc; exact absurd (by exact_mod_cast hc) hq

/-- Witness for toDuration_numeric: a zero span is accepted unchanged
and a negative span raises PastDuration. -/
theorem toDuration_numeric_w :
    toDuration (.float 0) [] = .ok (0, []) ∧
    toDuration (.float (-3)) [] = .error .pastDuration :=
  ⟨(toDuration_numeric 0 5 []).1 le_rfl,
    (toDuration_numeric (-3) 5 []).2.1.mpr (by norm_num)⟩

/-- C2 counterexample: a boolean input does not raise the
UnconvertibleDuration error — Python's isinstance(True, (int, float))
holds because bool subclasses int, so True converts to a one-second
span. -/
theorem toDuration_boolean_cex :
    toDuration (.boolean true) [] = .ok (1, []) ∧
    toDuration (.boolean true) [] ≠ .error .unconvertibleDuration := by
  have h : toDuration (.boolean true) [] = .ok (1, []) := by
    rw [toDuration, convertStopTime]
    norm_num
  exact ⟨h, by rw [h]; intro hc; cases hc⟩

/-- C2 amended: inputs outside the numeric/timestamp/span shapes, such
as a mapping or a string, raise UnconvertibleDuration; a boolean,
however, is treated as a numeric value (it is an int subclass) and
converts to a span of 1 second (True) or 0 seconds (False). -/
theorem toDuration_unconvertible (clock : List ℚ) (s : String) (b : Bool) :
    toDuration .mapping clock = .error .unconvertibleDuration ∧
    toDuration (.string s) clock = .error .unconvertibleDuration ∧
    toDuration (.boolean b) clock = .ok ((if b then 1 else 0 : ℚ), clock) := by
  refine ⟨rfl, rfl, ?_⟩
  rw [toDuration, convertStopTime]
  cases b <;> norm_num

/-- C6: with no config file present, get_config writes the default
record — empty credential strings, exactly the two default scopes, the
default redirect URI — and raises the ConfigMissing error; the next
call, the file now existing, returns the stored values without error
(in general, any stored record is returned as-is). -/
theorem getConfig_bootstrap :
    getConfig none = (some defaultConfig, .error .configMissing) ∧
    defaultConfig.username = "" ∧
    defaultConfig.clientId = "" ∧
    defaultConfig.clientSecret = "" ∧
    defaultConfig.scope =
      ["user-modify-playback-state", "user-read-currently-playing"] ∧
    defaultConfig.redirectUri = "http://localhost:8080" ∧
    getConfig (getConfig none).1 = (some defaultConfig, .ok defaultConfig) ∧
    (∀ c : Config, getConfig (some c) = (some c, .ok c)) :=
  ⟨rfl, rfl, rfl, rfl, rfl, rfl, rfl, fun _ => rfl⟩

/-- C8: the playback-state check returns false when the
currently-playing query yields no record, and otherwise returns
exactly the boolean play state stored under the response record's
is_playing key. -/
theorem isPlaying_reports_state :
    isPlaying none = .ok false ∧
    ∀ (r : PlayingRecord) (b : Bool),
      lookupKey r "is_playing" = some b → isPlaying (some r) = .ok b := by
  refine ⟨rfl, fun r b h => ?_⟩
  rw [isPlaying, h]

/-- Witness for isPlaying_reports_state at a record that reports
playing. -/
theorem isPlaying_reports_state_w :
    lookupKey [("is_playing", true)] "is_playing" = some true ∧
    isPlaying (some [("is_playing", true)]) = .ok true :=
  ⟨rfl, isPlaying_reports_state.2 [("is_playing", true)] true rfl⟩

/-- C10: on a non-null response record the is_playing lookup is
unguarded — a record holding the key yields its value, and a record
lacking the key raises (KeyError) instead of returning false. -/
theorem isPlaying_unguarded_lookup (r : PlayingRecord) :
    (lookupKey r "is_playing" = none →
      isPlaying (some r) = .error .keyMissing) ∧
    (∀ b, lookupKey r "is_playing" = some b →
      isPlaying (some r) = .ok b) := by
  refine ⟨fun h => ?_, fun b h => ?_⟩
  · rw [isPlaying, h]
  · rw [isPlaying, h]

/-- Witness for isPlaying_unguarded_lookup: the empty record raises,
a record holding the key succeeds. -/
theorem isPlaying_unguarded_lookup_w :
    lookupKey ([] : PlayingRecord) "is_playing" = none ∧
    isPlaying (some ([] : PlayingRecord)) = .error .keyMissing ∧
    isPlaying (some [("is_playing", false)]) = .ok false :=
  ⟨rfl, (isPlaying_unguarded_lookup []).1 rfl,
    (isPlaying_unguarded_lookup [("is_playing", false)]).2 false rfl⟩

/-- C5: when the entry playback-state check returns false, sleep_timer
prints the "does not play songs." notice and returns at once: its only
API traffic is the session creation and that single query — the wait
loop is never entered and no pause command is issued. -/
theorem sleepTimer_not_playing (v : StopTimeValue)
    (resp : Option PlayingRecord) (restPlaying : List (Option PlayingRecord))
    (clock : List ℚ) (h : isPlaying resp = .ok false) :
    sleepTimer v ⟨clock, resp :: restPlaying⟩ =
      ⟨[.createSession, .queryCurrentlyPlaying], [.notPlaying], .ok ()⟩ := by
  simp only [sleepTimer, h]

/-- Witness for sleepTimer_not_playing at a null query response. -/
theorem sleepTimer_not_playing_w :
    isPlaying none = .ok false ∧
    sleepTimer (.float 5) ⟨[], [none]⟩ =
      ⟨[.createSession, .queryCurrentlyPlaying], [.notPlaying], .ok ()⟩ :=
  ⟨rfl, sleepTimer_not_playing (.float 5) none [] [] rfl⟩

/-- C1 counterexample: with stop time -5 and playback active, the run
does raise PastDuration, but only after the session has been created
and one playback-state query has been made — its event trace is
nonempty, refuting "before any API authentication call (and hence
before any playback-state query) is attempted". -/
theorem sleepTimer_negative_cex :
    sleepTimer (.float (-5)) ⟨[], [some [("is_playing", true)]]⟩ =
      ⟨[.createSession, .queryCurrentlyPlaying], [], .error .pastDuration⟩ ∧
    (sleepTimer (.float (-5))
        ⟨[], [some [("is_playing", true)]]⟩).events ≠ [] := by
  have h : sleepTimer (.float (-5)) ⟨[], [some [("is_playing", true)]]⟩ =
      ⟨[.createSession, .queryCurrentlyPlaying], [], .error .pastDuration⟩ := by
    have hp : isPlaying (some [("is_playing", true)]) = .ok true := rfl
    have hd : toDuration (.float (-5)) ([] : List ℚ) =
        .error .pastDuration := by
      rw [toDuration, convertStopTime]
      norm_num
    simp only [sleepTimer, hp, hd]
  refine ⟨h, ?_⟩
  rw [h]
  intro hc
  cases hc

/-- C1 amended: for a negative numeric stop time with playback active
at entry, sleep_timer fails with PastDuration, but only after the
session acquisition and one playback-state query; it emits no pause
command, so no music is paused before the abort. -/
theorem sleepTimer_negative_after_query (s : ℚ) (r : PlayingRecord)
    (restPlaying : List (Option PlayingRecord)) (clock : List ℚ)
    (hs : s < 0) (h1 : lookupKey r "is_playing" = some true) :
    sleepTimer (.float s) ⟨clock, some r :: restPlaying⟩ =
      ⟨[.createSession, .queryCurrentlyPlaying], [], .error .pastDuration⟩ := by
  have hp : isPlaying (some r) = .ok true := by rw [isPlaying, h1]
  have hd : toDuration (.float s) clock = .error .pastDuration := by
    simp only [toDuration, convertStopTime]
    rw [if_pos hs]
  simp only [sleepTimer, hp, hd]

/-- Witness for sleepTimer_negative_after_query at stop time -5. -/
theorem sleepTimer_negative_after_query_w :
    (-5 : ℚ) < 0 ∧
    sleepTimer (.float (-5)) ⟨[0], [some [("is_playing", true)], none]⟩ =
      ⟨[.createSession, .queryCurrentlyPlaying], [], .error .pastDuration⟩ :=
  ⟨by norm_num,
    sleepTimer_negative_after_query (-5) [("is_playing", true)] [none] [0]
      (by norm_num) rfl⟩

/-- C3: with playback active at entry and still active at the post-loop
re-check, and a clock trace on which the wait loop terminates,
sleep_timer issues exactly one pause command, and the loop exit elapsed
value e satisfies duration ≤ e — the pause comes only after the elapsed
time has reached the requested duration. -/
theorem sleepTimer_active_pause_once
    (s startTime disp e : ℚ) (loopClock rest : List ℚ)
    (r1 r2 : PlayingRecord)
    (hs : 0 ≤ s)
    (h1 : lookupKey r1 "is_playing" = some true)
    (h2 : lookupKey r2 "is_playing" = some true)
    (hloop : timerLoop startTime s loopClock = some (e, rest)) :
    (sleepTimer (.float s)
        ⟨startTime :: disp :: loopClock, [some r1, some r2]⟩).events.count
        .pausePlayback = 1 ∧
    s ≤ e ∧
    (sleepTimer (.float s)
        ⟨startTime :: disp :: loopClock, [some r1, some r2]⟩).result =
      .ok () := by
  have hp1 : isPlaying (some r1) = .ok true := by rw [isPlaying, h1]
  have hp2 : isPlaying (some r2) = .ok true := by rw [isPlaying, h2]
  have hd : toDuration (.float s) (startTime :: disp :: loopClock) =
      .ok (s, startTime :: disp :: loopClock) := by
    simp only [toDuration, convertStopTime]
    rw [if_neg (not_lt.mpr hs)]
  have hrun : sleepTimer (.float s)
      ⟨startTime :: disp :: loopClock, [some r1, some r2]⟩ =
      ⟨[.createSession, .queryCurrentlyPlaying, .queryCurrentlyPlaying,
          .pausePlayback],
        [.startTimer, .startEnd, .stopPlaying], .ok ()⟩ := by
    simp only [sleepTimer, hp1, hp2, hd, hloop]
  rw [hrun]
  exact ⟨rfl, le_of_lt (timerLoop_exit_gt startTime s loopClock e rest hloop),
    rfl⟩

/-- Witness for sleepTimer_active_pause_once on a two-reading clock. -/
theorem sleepTimer_active_pause_once_w :
    timerLoop 0 0 [1] = some (1, []) ∧
    (sleepTimer (.float 0)
        ⟨[0, 0, 1],
          [some [("is_playing", true)], some [("is_playing", true)]]⟩).events.count
        .pausePlayback = 1 :=
  have hloop : timerLoop 0 0 [1] = some (1, []) := by norm_num [timerLoop]
  ⟨hloop,
    (sleepTimer_active_pause_once 0 0 0 1 [1] [] [("is_playing", true)]
      [("is_playing", true)] le_rfl rfl rfl hloop).1⟩

/-- C4: when playback stops on its own (the post-loop re-check reports
not playing), the loop still does not exit early — every clock reading
consumed before the break has elapsed ≤ duration, the break happens at
elapsed e with duration < e — and no pause command is issued. -/
theorem sleepTimer_stopped_no_pause
    (s startTime disp e : ℚ) (loopClock rest : List ℚ)
    (r1 r2 : PlayingRecord)
    (hs : 0 ≤ s)
    (h1 : lookupKey r1 "is_playing" = some true)
    (h2 : lookupKey r2 "is_playing" = some false)
    (hloop : timerLoop startTime s loopClock = some (e, rest)) :
    s < e ∧
    (∃ pre t, loopClock = pre ++ t :: rest ∧
      (∀ u ∈ pre, u - startTime ≤ s) ∧ e = t - startTime) ∧
    (sleepTimer (.float s)
        ⟨startTime :: disp :: loopClock, [some r1, some r2]⟩).events.count
        .pausePlayback = 0 ∧
    (sleepTimer (.float s)
        ⟨startTime :: disp :: loopClock, [some r1, some r2]⟩).result =
      .ok () := by
  have hp1 : isPlaying (some r1) = .ok true := by rw [isPlaying, h1]
  have hp2 : isPlaying (some r2) = .ok false := by rw [isPlaying, h2]
  have hd : toDuration (.float s) (startTime :: disp :: loopClock) =
      .ok (s, startTime :: disp :: loopClock) := by
    simp only [toDuration, convertStopTime]
    rw [if_neg (not_lt.mpr hs)]
  have hrun : sleepTimer (.float s)
      ⟨startTime :: disp :: loopClock, [some r1, some r2]⟩ =
      ⟨[.createSession, .queryCurrentlyPlaying, .queryCurrentlyPlaying],
        [.startTimer, .startEnd], .ok ()⟩ := by
    simp only [sleepTimer, hp1, hp2, hd, hloop]
  rw [hrun]
  exact ⟨timerLoop_exit_gt startTime s loopClock e rest hloop,
    timerLoop_split startTime s loopClock e rest hloop, rfl, rfl⟩

/-- Witness for sleepTimer_stopped_no_pause: playback has stopped by
the post-loop re-check, so no pause is sent. -/
theorem sleepTimer_stopped_no_pause_w :
    timerLoop 0 0 [1] = some (1, []) ∧
    (sleepTimer (.float 0)
        ⟨[0, 0, 1],
          [some [("is_playing", true)],
            some [("is_playing", false)]]⟩).events.count .pausePlayback =
      0 :=
  have hloop : timerLoop 0 0 [1] = some (1, []) := by norm_num [timerLoop]
  ⟨hloop,
    (sleepTimer_stopped_no_pause 0 0 0 1 [1] [] [("is_playing", true)]
      [("is_playing", false)] le_rfl rfl rfl hloop).2.2.1⟩

/-- C9: at the CLI entry point, a missing positional argument fails
with "please input stop time" and an unparseable argument fails with a
message naming the offending value; in both cases nothing else runs —
no config load, no API traffic, the config file untouched. -/
theorem mainEntry_invalid_stop_time (argv : List String)
    (parse : String → Option ℚ) (file : Option Config) (w : World) :
    (argv.get? 1 = none →
      mainEntry argv parse file w =
        ⟨[], file, [], [],
          .error (.invalidStopTime "please input stop time")⟩) ∧
    (∀ a, argv.get? 1 = some a → parse a = none →
      mainEntry argv parse file w =
        ⟨[], file, [], [],
          .error (.invalidStopTime ("cannot convert input. input=" ++ a))⟩) := by
  refine ⟨fun h => ?_, fun a h1 h2 => ?_⟩
  · simp only [mainEntry, h]
  · simp only [mainEntry, h1, h2]

/-- Witness for mainEntry_invalid_stop_time: an argv with no stop-time
argument, and one whose argument float() rejects. -/
theorem mainEntry_invalid_stop_time_w :
    (["prog"] : List String).get? 1 = none ∧
    mainEntry ["prog"] (fun _ => none) none ⟨[], []⟩ =
      ⟨[], none, [], [],
        .error (.invalidStopTime "please input stop time")⟩ ∧
    mainEntry ["prog", "abc"] (fun _ => none) none ⟨[], []⟩ =
      ⟨[], none, [], [],
        .error (.invalidStopTime "cannot convert input. input=abc")⟩ :=
  ⟨rfl,
    (mainEntry_invalid_stop_time ["prog"] (fun _ => none) none ⟨[], []⟩).1 rfl,
    (mainEntry_invalid_stop_time ["prog", "abc"] (fun _ => none) none
      ⟨[], []⟩).2 "abc" rfl rfl⟩

end SpotifySleepTimer
